import Mathlib

/-!
Verification development for the Restaurant-Stats repository.

Shallow embedding of the order-synthesis pipeline
(server/mongo/generate_doordash_orders.py), the order transform
(server/mongo/insert_orders.py), the catalog-builder JSON extraction
(server/mongo/mcp_scrapers/fake_data_mcp.py) and the order query service
(server/api/orders_route.py).

Conventions used throughout:
- Python floats are modelled as rationals; round(x, 2) is modelled by
  rounding x * 100 to the nearest integer and dividing by 100.
- Every call to the random module is modelled as an explicit parameter of
  the embedded function (the value the random draw produced), and theorems
  carry the draw's documented range as a hypothesis.
- Timestamps are modelled as integers (epoch seconds); only their linear
  order matters to the claims.
- The MongoDB collection is modelled as a list of documents, and the query
  operators used by the routes (equality, $regex with option i, $gte/$lte,
  $near with $maxDistance, sort, skip, limit, count) are given their
  documented semantics on that list, including two documented restrictions
  of the driver/server: count_documents executes its filter as an
  aggregation $match stage, where $near is disallowed, so a count over a
  $near filter is rejected by the server instead of returning a number;
  and an explicit sort() on a cursor replaces any $near distance ordering.
  Fallible driver calls are modelled in Except.
-/

namespace RestaurantStats

/-- round(x, 2) of Python, on rationals: round to the nearest centi. -/
def round2 (q : ℚ) : ℚ := ((round (q * 100) : ℤ) : ℚ) / 100

/-- A rational that is a whole number of hundredths (the shape of every
round2 result). -/
def IsCenti (q : ℚ) : Prop := ∃ k : ℤ, q = (k : ℚ) / 100

/-! ### Catalog entries and menu items (generate_doordash_orders.py) -/

/-- One entry of a menu category list: either a free-text string or a
structured object whose name / unitPrice keys may each be absent or null. -/
inductive MenuItem where
  | text (s : String)
  | obj (name : Option String) (unitPrice : Option ℚ)
deriving DecidableEq, Repr

/-- A restaurant catalog entry.  menus is none when the key is absent or
null (both collapse to the empty mapping in select_menu_items); a category
maps to none when its value is null rather than a list. -/
structure Restaurant where
  restaurant : Option String
  address : Option String
  menus : Option (List (String × Option (List MenuItem)))
deriving DecidableEq, Repr

/-- The three fixed category keys scanned by select_menu_items. -/
def categoryKeys : List String := ["Dinner", "Lunch", "Drinks"]

/-- The items contributed by one category key: present, non-null, non-empty
list values only (an empty list is falsy in Python and is skipped, which
contributes nothing either way). -/
def menuSection (menus : List (String × Option (List MenuItem))) (cat : String) :
    List MenuItem :=
  match menus.lookup cat with
  | some (some items) => if items.isEmpty then [] else items
  | _ => []

/-- all_items of select_menu_items: the per-category extend loop over the
three fixed keys. -/
def all_items (r : Restaurant) : List MenuItem :=
  match r.menus with
  | none => []
  | some m => categoryKeys.flatMap (menuSection m)

/-- The eligibility test of select_menu_items: a dict with a truthy name
and a non-None unitPrice. -/
def itemIsValid : MenuItem → Bool
  | .text _ => false
  | .obj name unitPrice =>
      (match name with
       | some n => !(n == "")
       | none => false) && unitPrice.isSome

/-- valid_items of select_menu_items. -/
def valid_items (r : Restaurant) : List MenuItem :=
  (all_items r).filter itemIsValid

/-- One generated product line (the nested price dict of the Python record
is flattened into the two price fields). -/
structure RawProduct where
  name : String
  quantity : ℕ
  unitPrice : ℚ
  total : ℚ
deriving DecidableEq, Repr

/-- The random draws consumed by select_menu_items: the randint(2,5) item
count, the shuffle underlying random.sample (as a list of indices), and the
stream of randint(1,3) quantities. -/
structure SelectParams where
  numItems : ℕ
  perm : List ℕ
  quants : List ℕ
deriving Repr

/-- Index-list application used to model random.sample: pick the listed
positions of l. -/
def applyPerm (σ : List ℕ) (l : List α) : List α :=
  σ.filterMap fun i => l[i]?

/-- The product-building loop of select_menu_items: skips anything invalid
(never fires on sampled items), pairs each kept item with the next random
quantity, and computes the line total as round(unitPrice * quantity, 2). -/
def buildProducts : List MenuItem → List ℕ → List RawProduct
  | [], _ => []
  | MenuItem.text _ :: rest, qs => buildProducts rest qs
  | MenuItem.obj name unitPrice :: rest, qs =>
      match name, unitPrice with
      | some n, some up =>
          if n == "" then buildProducts rest qs
          else
            let q := qs.headD 1
            { name := n, quantity := q, unitPrice := up,
              total := round2 (up * (q : ℚ)) } :: buildProducts rest qs.tail
      | _, _ => buildProducts rest qs

/-- select_menu_items: returns [] when no eligible item exists, otherwise
samples min(numItems, |valid|) eligible items (random.sample modelled as a
permutation prefix) and builds the product lines. -/
def select_menu_items (r : Restaurant) (sp : SelectParams) : List RawProduct :=
  let valid := valid_items r
  if valid.isEmpty then []
  else
    buildProducts ((applyPerm sp.perm valid).take (min sp.numItems valid.length)) sp.quants

/-! ### Pricing (calculate_pricing) -/

/-- One adjustment entry of the price breakdown. -/
structure Adjustment where
  type : String
  label : String
  amount : ℚ
deriving DecidableEq, Repr

/-- The price dict produced by calculate_pricing. -/
structure PriceInfo where
  subTotal : ℚ
  adjustments : List Adjustment
  total : ℚ
  currency : String
deriving DecidableEq, Repr

/-- The random draws consumed by calculate_pricing: uniform(0.06,0.08),
uniform(0.10,0.20), the random() < 0.3 outcome, and uniform(0.03,0.05). -/
structure PricingParams where
  taxRate : ℚ
  tipRate : ℚ
  hasFee : Bool
  feeRate : ℚ
deriving Repr

/-- calculate_pricing of generate_doordash_orders.py. -/
def calculate_pricing (products : List RawProduct) (pp : PricingParams) : PriceInfo :=
  let subtotal := round2 ((products.map (·.total)).sum)
  let tax_amount := round2 (subtotal * pp.taxRate)
  let tip_amount := round2 (subtotal * pp.tipRate)
  let base : List Adjustment :=
    [{ type := "TAX", label := "Estimated Tax", amount := tax_amount },
     { type := "TIP", label := "Dasher Tip", amount := tip_amount }]
  let adjustments :=
    if pp.hasFee then
      { type := "FEE", label := "Service Fee",
        amount := round2 (subtotal * pp.feeRate) } :: base
    else base
  { subTotal := subtotal,
    adjustments := adjustments,
    total := round2 (subtotal + (adjustments.map (·.amount)).sum),
    currency := "USD" }

/-! ### Order synthesis (generate_order, main of generate_doordash_orders.py) -/

/-- An address record as produced by parse_address /
generate_delivery_address (pre-transform: no geo-point yet). -/
structure RawAddress where
  line1 : String
  city : String
  region : String
  postalCode : String
  countryCode : String
deriving DecidableEq, Repr

/-- parse_address: split the catalog address on commas; the fallback branch
and the missing-zip case consume random / faker draws, passed in as
fbLine1 and fbZip. -/
def parse_address (address_str : String) (fbLine1 fbZip : String) : RawAddress :=
  let parts := address_str.splitOn ", "
  if 3 ≤ parts.length then
    let state_zip := (parts.getD 2 "").splitOn " "
    { line1 := parts.getD 0 "",
      city := parts.getD 1 "",
      region := state_zip.getD 0 "NJ",
      postalCode := if 1 < state_zip.length then state_zip.getD 1 "" else fbZip,
      countryCode := "US" }
  else
    { line1 := fbLine1, city := "Princeton", region := "NJ",
      postalCode := fbZip, countryCode := "US" }

/-- The random draws consumed by one generate_order call (order id, the
generated delivery address, phone number, and the draws of the nested
select / pricing steps plus parse_address fallbacks). -/
structure GenParams where
  sel : SelectParams
  pricing : PricingParams
  orderId : String
  deliveryAddress : RawAddress
  phone : String
  fbLine1 : String
  fbZip : String
deriving Repr

/-- A pre-transform synthetic order (the nested shipping.location.address
and store.location.{address,name,phoneNumber} wrappers are flattened into
fields of the record). -/
structure RawOrder where
  external_user_id : String
  url : String
  orderStatus : String
  shippingAddress : RawAddress
  storeName : String
  storeAddress : RawAddress
  storePhone : String
  price : PriceInfo
  products : List RawProduct
  schema_version : String
deriving DecidableEq, Repr

/-- generate_order: returns none (the failure signal) when no products
could be selected, otherwise the composed order. -/
def generate_order (r : Restaurant) (g : GenParams) (order_index : ℕ) :
    Option RawOrder :=
  let products := select_menu_items r g.sel
  if products.isEmpty then none
  else
    some
      { external_user_id := toString (10000 + order_index),
        url := "https://www.doordash.com/orders/" ++ g.orderId,
        orderStatus := "COMPLETED",
        shippingAddress := g.deliveryAddress,
        storeName := r.restaurant.getD "Unknown Restaurant",
        storeAddress := parse_address (r.address.getD "") g.fbLine1 g.fbZip,
        storePhone := g.phone,
        price := calculate_pricing products g.pricing,
        products := products,
        schema_version := "11/08/2025" }

/-- The retry budget of main (max_retries = 5). -/
def maxRetries : ℕ := 5

/-- One slot of the batch loop of main: up to maxRetries attempts, each
with its own freshly drawn restaurant and random draws, stopping at the
first success. -/
def trySlot (picks : List (Restaurant × GenParams)) (i : ℕ) : Option RawOrder :=
  (picks.take maxRetries).findSome? fun rg => generate_order rg.1 rg.2 i

/-- The batch loop of main: for every slot (order index paired with the
stream of random picks for that slot), append the order on success or bump
the failure tally on failure, never aborting. -/
def runBatch (slots : List (ℕ × List (Restaurant × GenParams))) :
    List RawOrder × ℕ :=
  slots.foldl
    (fun acc slot =>
      match trySlot slot.2 slot.1 with
      | some o => (acc.1 ++ [o], acc.2)
      | none => (acc.1, acc.2 + 1))
    ([], 0)

/-! ### Order transform (insert_orders.py) -/

/-- str.upper() of Python, character by character (the adjustment types at
hand are ASCII). -/
def strUpper (s : String) : String := String.mk (s.data.map Char.toUpper)

/-- Case-insensitive string equality. -/
def ciEq (a b : String) : Bool := strUpper a == strUpper b

/-- The loop body of extract_tax_and_tip: add the amount to the tax or the
tip accumulator according to the uppercased type. -/
def taxTipStep (acc : ℚ × ℚ) (adj : Adjustment) : ℚ × ℚ :=
  let ty := strUpper adj.type
  if ty == "TAX" then (acc.1 + adj.amount, acc.2)
  else if ty == "TIP" then (acc.1, acc.2 + adj.amount)
  else acc

/-- extract_tax_and_tip of insert_orders.py: the accumulation loop over the
adjustments followed by the final round(…, 2) of both sums. -/
def extract_tax_and_tip (adjustments : List Adjustment) : ℚ × ℚ :=
  let acc := adjustments.foldl taxTipStep (0, 0)
  (round2 acc.1, round2 acc.2)

/-! ### Stored (normalized) orders and the query service (orders_route.py) -/

/-- A GeoJSON point: [longitude, latitude]. -/
structure GeoPoint where
  lon : ℚ
  lat : ℚ
deriving DecidableEq, Repr

/-- A stored address with its geo-point. -/
structure Address where
  line1 : String
  city : String
  region : String
  postalCode : String
  countryCode : String
  location : GeoPoint
deriving DecidableEq, Repr

/-- The stored store sub-document. -/
structure Store where
  name : String
  phoneNumber : String
  address : Address
deriving DecidableEq, Repr

/-- The stored flattened price sub-document. -/
structure Price where
  subTotal : ℚ
  tax : ℚ
  tip : ℚ
  total : ℚ
  currency : String
deriving DecidableEq, Repr

/-- A stored product line. -/
structure Product where
  name : String
  quantity : ℕ
  unitPrice : ℚ
  total : ℚ
deriving DecidableEq, Repr

/-- A normalized order document of the orders collection.
order_completed_at is an epoch timestamp. -/
structure Order where
  order_key : String
  order_completed_at : ℤ
  status : String
  user_id : String
  shipping_address : Address
  store : Store
  price : Price
  products : List Product
  schema_version : String
deriving DecidableEq, Repr

/-- The regex metacharacters of PCRE; store_name filters are passed to
$regex unescaped, so these are interpreted, not literal. -/
def isRegexMeta (c : Char) : Bool :=
  c = '.' || c = '^' || c = '$' || c = '*' || c = '+' || c = '?' || c = '(' ||
  c = ')' || c = '[' || c = ']' || c = '{' || c = '}' || c = '|' || c = '\\'

/-- Case-insensitive single-character regex match for the pattern fragment
the embedding covers: the wildcard dot, every other character literal. -/
def reCharMatches (p c : Char) : Bool := p = '.' || p.toLower = c.toLower

/-- Case-insensitive literal single-character match. -/
def litCharMatches (p c : Char) : Bool := p.toLower = c.toLower

/-- Match the whole pattern at the head of the text (regex characters). -/
def reMatchHere : List Char → List Char → Bool
  | [], _ => true
  | _ :: _, [] => false
  | p :: ps, c :: cs => reCharMatches p c && reMatchHere ps cs

/-- Match the whole pattern at the head of the text (literal characters). -/
def litMatchHere : List Char → List Char → Bool
  | [], _ => true
  | _ :: _, [] => false
  | p :: ps, c :: cs => litCharMatches p c && litMatchHere ps cs

/-- Unanchored regex search over the text. -/
def reSearch (ps : List Char) : List Char → Bool
  | [] => ps.isEmpty
  | c :: ts => reMatchHere ps (c :: ts) || reSearch ps ts

/-- Unanchored literal search over the text. -/
def litSearch (ps : List Char) : List Char → Bool
  | [] => ps.isEmpty
  | c :: ts => litMatchHere ps (c :: ts) || litSearch ps ts

/-- The semantics the routes give a store_name filter: a case-insensitive
regular-expression search ($regex with option i) over store.name.  The
embedding covers the pattern fragment of literal characters and the
wildcard dot. -/
def regexSearchCI (pat text : String) : Bool := reSearch pat.data text.data

/-- Modelled from the spec words, for refinement comparison only: a plain
case-insensitive substring test on the store name. -/
def substrSearchCI (pat text : String) : Bool := litSearch pat.data text.data

/-- The sort key of every list route: order_completed_at descending. -/
def byDateDesc (a b : Order) : Prop := b.order_completed_at ≤ a.order_completed_at

instance : DecidableRel byDateDesc := fun a b =>
  inferInstanceAs (Decidable (b.order_completed_at ≤ a.order_completed_at))

instance : IsTotal Order byDateDesc :=
  ⟨fun a b => le_total b.order_completed_at a.order_completed_at⟩

instance : IsTrans Order byDateDesc :=
  ⟨fun _ _ _ h1 h2 => le_trans h2 h1⟩

/-- The optional query filters of GET /orders (absent = no constraint;
dates are always truthy in Python, totals are tested with is not None, the
three string filters are tested for truthiness so an empty string disables
them). -/
structure OrderFilters where
  user_id : Option String
  status : Option String
  store_name : Option String
  start_date : Option ℤ
  end_date : Option ℤ
  min_total : Option ℚ
  max_total : Option ℚ
deriving Repr

/-- The store_name clause of the query filter. -/
def storeNameMatches (fv : Option String) (o : Order) : Bool :=
  match fv with
  | some p => p == "" || regexSearchCI p o.store.name
  | none => true

/-- The document predicate denoted by the query filter built in
get_orders. -/
def matchesOrderFilters (f : OrderFilters) (o : Order) : Bool :=
  (match f.user_id with
   | some u => u == "" || o.user_id == u
   | none => true) &&
  (match f.status with
   | some s => s == "" || o.status == s
   | none => true) &&
  storeNameMatches f.store_name o &&
  (match f.start_date with
   | some d => decide (d ≤ o.order_completed_at)
   | none => true) &&
  (match f.end_date with
   | some d => decide (o.order_completed_at ≤ d)
   | none => true) &&
  (match f.min_total with
   | some m => decide (m ≤ o.price.total)
   | none => true) &&
  (match f.max_total with
   | some m => decide (o.price.total ≤ m)
   | none => true)

/-- The response shape of the list routes. -/
structure OrderListResult where
  orders : List Order
  total : ℕ
  page : ℕ
  page_size : ℕ
deriving DecidableEq, Repr

/-- GET /orders: count the filtered documents, sort by order_completed_at
descending, skip (page-1)*page_size, limit page_size. -/
def get_orders (collection : List Order) (page page_size : ℕ) (f : OrderFilters) :
    OrderListResult :=
  let matching := collection.filter (matchesOrderFilters f)
  let sorted := List.insertionSort byDateDesc matching
  { orders := (sorted.drop ((page - 1) * page_size)).take page_size,
    total := matching.length,
    page := page,
    page_size := page_size }

/-- GET /orders/store/{store_name}: the same pagination contract with the
single case-insensitive $regex filter on store.name. -/
def get_orders_by_store (collection : List Order) (store_name : String)
    (page page_size : ℕ) : OrderListResult :=
  let matching := collection.filter fun o => regexSearchCI store_name o.store.name
  let sorted := List.insertionSort byDateDesc matching
  { orders := (sorted.drop ((page - 1) * page_size)).take page_size,
    total := matching.length,
    page := page,
    page_size := page_size }

/-- The location field the nearby route selects. -/
def nearbyLocation (use_shipping : Bool) (o : Order) : GeoPoint :=
  if use_shipping then o.shipping_address.location else o.store.address.location

/-- A server rejection surfaced by a driver call (raised as an exception in
the route). -/
inductive QueryError where
  | nearNotAllowedInCountDocuments
deriving DecidableEq, Repr

/-- The query filter built by the nearby route: a single $near clause with
$maxDistance on the selected location field. -/
structure NearFilter where
  use_shipping : Bool
  center : GeoPoint
  maxMeters : ℚ
deriving DecidableEq, Repr

/-- The filter shapes the routes send to the driver: a plain predicate
filter, or a geospatial $near filter. -/
inductive MongoFilter where
  | plain (p : Order → Bool)
  | near (nf : NearFilter)

/-- Whether a document satisfies a $near clause: its selected location
lies within maxMeters of the center.  The geodesic distance in meters
computed by the server is abstracted as the dist argument. -/
def nearMatches (dist : GeoPoint → GeoPoint → ℚ) (nf : NearFilter)
    (o : Order) : Bool :=
  decide (dist nf.center (nearbyLocation nf.use_shipping o) ≤ nf.maxMeters)

/-- count_documents: the filter runs as an aggregation $match stage, where
$near is disallowed — a plain filter yields the matching count, a $near
filter is rejected by the server (pymongo documents that $geoWithin must
be used instead), which the route does not catch. -/
def count_documents (collection : List Order) :
    MongoFilter → Except QueryError ℕ
  | .plain p => .ok (collection.filter p).length
  | .near _ => .error .nearNotAllowedInCountDocuments

/-- find: both filter shapes are supported on a find cursor. -/
def findDocs (dist : GeoPoint → GeoPoint → ℚ) (collection : List Order) :
    MongoFilter → List Order
  | .plain p => collection.filter p
  | .near nf => collection.filter (nearMatches dist nf)

/-- GET /orders/nearby/orders: builds the $near/$maxDistance filter with
the radius converted to meters, then calls count_documents with it — which
the server rejects, since $near cannot appear in the aggregation $match
that count_documents runs, so the route raises on every request and the
page-producing code below the count (find, the explicit date-descending
sort that would replace the $near distance ordering, skip/limit) is never
reached. -/
def get_orders_nearby (dist : GeoPoint → GeoPoint → ℚ) (collection : List Order)
    (longitude latitude max_distance_km : ℚ) (page page_size : ℕ)
    (use_shipping : Bool) : Except QueryError OrderListResult := do
  let nf : NearFilter :=
    { use_shipping := use_shipping,
      center := { lon := longitude, lat := latitude },
      maxMeters := max_distance_km * 1000 }
  let total ← count_documents collection (.near nf)
  let sorted := List.insertionSort byDateDesc (findDocs dist collection (.near nf))
  pure { orders := (sorted.drop ((page - 1) * page_size)).take page_size,
         total := total,
         page := page,
         page_size := page_size }

/-- The optional filters of GET /orders/stats/summary. -/
structure StatsFilters where
  user_id : Option String
  store_name : Option String
  start_date : Option ℤ
  end_date : Option ℤ
deriving Repr

/-- The document predicate denoted by the stats query filter. -/
def matchesStatsFilters (f : StatsFilters) (o : Order) : Bool :=
  (match f.user_id with
   | some u => u == "" || o.user_id == u
   | none => true) &&
  storeNameMatches f.store_name o &&
  (match f.start_date with
   | some d => decide (d ≤ o.order_completed_at)
   | none => true) &&
  (match f.end_date with
   | some d => decide (o.order_completed_at ≤ d)
   | none => true)

/-- The response shape of GET /orders/stats/summary. -/
structure OrderStats where
  total_orders : ℕ
  total_revenue : ℚ
  average_order_value : ℚ
  total_tax : ℚ
  total_tips : ℚ
  unique_users : ℕ
  unique_restaurants : ℕ
deriving DecidableEq, Repr

/-- GET /orders/stats/summary: the $group/$project pipeline produces one
result row when documents match ($addToSet then $size for the distinct
counts, $divide only inside that row), and the route returns the literal
all-zero record when the pipeline result is empty. -/
def get_order_stats (collection : List Order) (f : StatsFilters) : OrderStats :=
  let matching := collection.filter (matchesStatsFilters f)
  if matching.isEmpty then
    { total_orders := 0, total_revenue := 0, average_order_value := 0,
      total_tax := 0, total_tips := 0, unique_users := 0, unique_restaurants := 0 }
  else
    let revenue := (matching.map (·.price.total)).sum
    { total_orders := matching.length,
      total_revenue := round2 revenue,
      average_order_value := round2 (revenue / (matching.length : ℚ)),
      total_tax := round2 ((matching.map (·.price.tax)).sum),
      total_tips := round2 ((matching.map (·.price.tip)).sum),
      unique_users := ((matching.map (·.user_id)).dedup).length,
      unique_restaurants := ((matching.map (·.store.name)).dedup).length }

/-! ### Catalog builder JSON extraction (fake_data_mcp.py) -/

/-- JSON values over the fragment the catalog pipeline exchanges: integer
numbers, escape-free strings, arrays and objects. -/
inductive Json where
  | num (n : ℤ)
  | str (s : String)
  | arr (elems : List Json)
  | obj (fields : List (String × Json))
deriving Repr

/-- JSON whitespace. -/
def isJsonWs (c : Char) : Bool := c = ' ' || c = '\n' || c = '\t' || c = '\r'

/-- Drop leading JSON whitespace. -/
def skipWs (cs : List Char) : List Char := cs.dropWhile isJsonWs

/-- Parse a string body after its opening quote (no escape support). -/
def parseStringLit (cs : List Char) : Option (String × List Char) :=
  let body := cs.takeWhile fun c => c ≠ '"'
  match cs.dropWhile (fun c => c ≠ '"') with
  | _ :: rest => some (String.mk body, rest)
  | [] => none

/-- Parse a run of decimal digits. -/
def parseNat (cs : List Char) : Option (ℕ × List Char) :=
  let ds := cs.takeWhile Char.isDigit
  if ds.isEmpty then none
  else some (ds.foldl (fun acc c => 10 * acc + (c.toNat - 48)) 0, cs.dropWhile Char.isDigit)

mutual

/-- Fueled recursive-descent JSON value parser (json.loads on the covered
fragment). -/
def parseVal : ℕ → List Char → Option (Json × List Char)
  | 0, _ => none
  | fuel + 1, cs =>
    match skipWs cs with
    | [] => none
    | c :: rest =>
      if c = '[' then
        match skipWs rest with
        | ']' :: rest2 => some (.arr [], rest2)
        | _ => do
          let (e, r1) ← parseVal fuel rest
          let (es, r2) ← parseArrTail fuel r1
          pure (.arr (e :: es), r2)
      else if c = '{' then
        match skipWs rest with
        | '}' :: rest2 => some (.obj [], rest2)
        | _ => do
          let (kv, r1) ← parseField fuel rest
          let (kvs, r2) ← parseObjTail fuel r1
          pure (.obj (kv :: kvs), r2)
      else if c = '"' then
        (parseStringLit rest).map fun sr => (.str sr.1, sr.2)
      else if c = '-' then
        (parseNat rest).map fun nr => (.num (-(nr.1 : ℤ)), nr.2)
      else if c.isDigit then
        (parseNat (c :: rest)).map fun nr => (.num (nr.1 : ℤ), nr.2)
      else none

/-- After an array element: a comma and another element, or the closer. -/
def parseArrTail : ℕ → List Char → Option (List Json × List Char)
  | 0, _ => none
  | fuel + 1, cs =>
    match skipWs cs with
    | ']' :: rest => some ([], rest)
    | ',' :: rest => do
      let (e, r1) ← parseVal fuel rest
      let (es, r2) ← parseArrTail fuel r1
      pure (e :: es, r2)
    | _ => none

/-- One key-value pair of an object. -/
def parseField : ℕ → List Char → Option ((String × Json) × List Char)
  | 0, _ => none
  | fuel + 1, cs =>
    match skipWs cs with
    | '"' :: rest => do
      let (k, r1) ← parseStringLit rest
      match skipWs r1 with
      | ':' :: r2 => do
        let (v, r3) ← parseVal fuel r2
        pure ((k, v), r3)
      | _ => none
    | _ => none

/-- After an object field: a comma and another field, or the closer. -/
def parseObjTail : ℕ → List Char → Option (List (String × Json) × List Char)
  | 0, _ => none
  | fuel + 1, cs =>
    match skipWs cs with
    | '}' :: rest => some ([], rest)
    | ',' :: rest => do
      let (kv, r1) ← parseField fuel rest
      let (kvs, r2) ← parseObjTail fuel r1
      pure (kv :: kvs, r2)
    | _ => none

end

/-- Whole-string JSON parse: one value and nothing but whitespace after
it.  A none models a raised json.JSONDecodeError. -/
def Json.parse (s : String) : Option Json :=
  match parseVal (s.length + 1) s.data with
  | some (v, rest) => if (skipWs rest).isEmpty then some v else none
  | none => none

/-- Split off everything up to and excluding the first occurrence of the
target character; none when it does not occur. -/
def splitAtChar (target : Char) (cs : List Char) : Option (List Char × List Char) :=
  match cs.dropWhile (fun c => c ≠ target) with
  | [] => none
  | _ :: after => some (cs.takeWhile (fun c => c ≠ target), after)

/-- The findall pass of extract_json_from_response for the pattern of one
lazy bracket group or one lazy brace group with DOTALL: scanning left to
right, an opening bracket (or brace) matches up to the first later closer
of the same kind, and scanning resumes after it; positions without such a
match are skipped.  Fueled by the text length (each step consumes at least
one character). -/
def scanLazy : ℕ → List Char → List (List Char)
  | 0, _ => []
  | _, [] => []
  | fuel + 1, c :: rest =>
    if c = '[' then
      match splitAtChar ']' rest with
      | some (body, after) => ('[' :: body ++ [']']) :: scanLazy fuel after
      | none => scanLazy fuel rest
    else if c = '{' then
      match splitAtChar '}' rest with
      | some (body, after) => ('{' :: body ++ ['}']) :: scanLazy fuel after
      | none => scanLazy fuel rest
    else scanLazy fuel rest

/-- The string matches produced by the findall pass. -/
def findallDelims (s : String) : List String :=
  (scanLazy s.length s.data).map String.mk

/-- One step of max(matches, key=len): keep the accumulator unless the
next element is strictly longer (so the first maximum wins, as in
Python). -/
def pyPickLonger (acc x : String) : String :=
  if acc.length < x.length then x else acc

/-- max(matches, key=len) of Python: the first element of maximal
length. -/
def pyMaxLen : List String → String
  | [] => ""
  | h :: t => t.foldl pyPickLonger h

/-- extract_json_from_response of fake_data_mcp.py: return a whole-string
parse when it yields a list; otherwise run the findall pass, give up with
[] when it finds nothing, and parse its longest match, wrapping a non-list
value into a singleton and degrading to [] when that parse fails too. -/
def extract_json_from_response (s : String) : List Json :=
  match Json.parse s with
  | some (Json.arr l) => l
  | _ =>
    let ms := findallDelims s
    if ms.isEmpty then []
    else
      match Json.parse (pyMaxLen ms) with
      | some (Json.arr l) => l
      | some v => [v]
      | none => []

/-- A string delimited in the sense the spec sentence describes: it starts
with an opening bracket (or brace) and ends with the matching closer. -/
def isDelimited (cs : List Char) : Bool :=
  match cs.head?, cs.getLast? with
  | some '[', some ']' => true
  | some '{', some '}' => true
  | _, _ => false

/-- The longest bracket- or brace-delimited substring of the text (the
first one among equals), or none. -/
def longestDelimitedSubstring (s : String) : Option String :=
  match (s.data.tails.flatMap (fun t => t.inits)).filter isDelimited with
  | [] => none
  | h :: t =>
      some (String.mk (t.foldl (fun acc x => if acc.length < x.length then x else acc) h))

/-- Modelled from the spec words, for refinement comparison only: the
extraction the spec sentence describes, selecting the longest bracket- or
brace-delimited substring of the whole text. -/
def extract_json_spec (s : String) : List Json :=
  match Json.parse s with
  | some (Json.arr l) => l
  | _ =>
    match longestDelimitedSubstring s with
    | none => []
    | some m =>
      match Json.parse m with
      | some (Json.arr l) => l
      | some v => [v]
      | none => []

/-! ### Concrete data used by witnesses and counterexamples -/

/-- A catalog entry whose menus key is null. -/
def rNoMenus : Restaurant :=
  { restaurant := some "Empty Place",
    address := some "1 Nassau St, Princeton, NJ 08542",
    menus := none }

/-- A catalog entry with one eligible Dinner item and one eligible item
parked under a non-scanned category name. -/
def rDinner : Restaurant :=
  { restaurant := some "Mamoun's Falafel - Princeton",
    address := some "20 Witherspoon St, Princeton, NJ 08542",
    menus := some
      [("Dinner", some [MenuItem.obj (some "Falafel Platter") (some 14)]),
       ("Breakfast", some [MenuItem.obj (some "Pancakes") (some 9)])] }

/-- Concrete random draws for one select_menu_items call. -/
def spW : SelectParams := { numItems := 2, perm := [0], quants := [2] }

/-- Concrete random draws for one generate_order call. -/
def gpW : GenParams :=
  { sel := spW,
    pricing := { taxRate := 7/100, tipRate := 15/100, hasFee := false, feeRate := 4/100 },
    orderId := "abc123def456",
    deliveryAddress :=
      { line1 := "2 Elm Rd", city := "Princeton", region := "NJ",
        postalCode := "08540", countryCode := "US" },
    phone := "+16091234567",
    fbLine1 := "9 Palmer Sq",
    fbZip := "08542" }

/-- A stored address at a given geo-point. -/
def addrAt (p : GeoPoint) : Address :=
  { line1 := "1 Nassau St", city := "Princeton", region := "NJ",
    postalCode := "08540", countryCode := "US", location := p }

/-- A stored order with the fields the query claims exercise. -/
def mkStoredOrder (key : String) (t : ℤ) (uid sname : String)
    (ship store : GeoPoint) (total : ℚ) : Order :=
  { order_key := key, order_completed_at := t, status := "COMPLETED",
    user_id := uid,
    shipping_address := addrAt ship,
    store := { name := sname, phoneNumber := "+16095551234", address := addrAt store },
    price := { subTotal := total, tax := 1, tip := 2, total := total, currency := "USD" },
    products := [{ name := "Falafel", quantity := 1, unitPrice := total, total := total }],
    schema_version := "11/08/2025" }

/-- The store whose name a metacharacter pattern matches while the plain
substring test does not. -/
def oAbc : Order :=
  mkStoredOrder "abcdiner0001" 150 "10003" "Abc Diner"
    { lon := 0, lat := 0 } { lon := 0, lat := 0 } 25

/-- The empty order filter record. -/
def noOrderFilters : OrderFilters :=
  { user_id := none, status := none, store_name := none,
    start_date := none, end_date := none, min_total := none, max_total := none }

/-- The product the concrete selection witness produces. -/
def wProduct : RawProduct :=
  { name := "Falafel Platter", quantity := 2, unitPrice := 14,
    total := round2 (14 * ((2:ℕ) : ℚ)) }

/-! ## Theorems -/

/-! ### Rounding helpers -/

theorem isCenti_round2 (q : ℚ) : IsCenti (round2 q) := ⟨round (q * 100), rfl⟩

theorem isCenti_add {a b : ℚ} (ha : IsCenti a) (hb : IsCenti b) : IsCenti (a + b) := by
  obtain ⟨k, hk⟩ := ha
  obtain ⟨m, hm⟩ := hb
  exact ⟨k + m, by push_cast [hk, hm]; ring⟩

theorem isCenti_zero : IsCenti 0 := ⟨0, by norm_num⟩

theorem isCenti_sum {l : List ℚ} (h : ∀ x ∈ l, IsCenti x) : IsCenti l.sum := by
  induction l with
  | nil => simpa using isCenti_zero
  | cons a t ih =>
      rw [List.sum_cons]
      exact isCenti_add (h a (List.mem_cons_self a t))
        (ih fun x hx => h x (List.mem_cons_of_mem a hx))

theorem round2_eq_self {q : ℚ} (h : IsCenti q) : round2 q = q := by
  obtain ⟨k, hk⟩ := h
  subst hk
  rw [round2, div_mul_cancel₀ _ (by norm_num : (100 : ℚ) ≠ 0), round_intCast]

/-! ### C4: tax and tip extraction -/

theorem extract_foldl_eq (adjs : List Adjustment) (t p : ℚ) :
    adjs.foldl taxTipStep (t, p)
    = (t + (((adjs.filter fun a => strUpper a.type == "TAX").map (·.amount)).sum),
       p + (((adjs.filter fun a => strUpper a.type == "TIP").map (·.amount)).sum)) := by
  induction adjs generalizing t p with
  | nil => simp
  | cons a l ih =>
      rw [List.foldl_cons]
      by_cases h1 : strUpper a.type = "TAX"
      · have h2 : (strUpper a.type == "TIP") = false := by
          rw [h1]; decide
        have hstep : taxTipStep (t, p) a = (t + a.amount, p) := by
          simp [taxTipStep, h1]
        rw [hstep, ih]
        simp [List.filter_cons, h1, h2, add_assoc]
      · by_cases h2 : strUpper a.type = "TIP"
        · have h1b : (strUpper a.type == "TAX") = false := by
            rw [h2]; decide
          have hstep : taxTipStep (t, p) a = (t, p + a.amount) := by
            simp [taxTipStep, h1b, h2]
          rw [hstep, ih]
          simp [List.filter_cons, h1b, h2, add_assoc]
        · have hstep : taxTipStep (t, p) a = (t, p) := by
            simp [taxTipStep, h1, h2]
          rw [hstep, ih]
          simp [List.filter_cons, h1, h2]

/-- C4: for every adjustments list, the transformed scalar tax field is the
2-decimal rounding of the sum of the amounts of all adjustments whose type
is case-insensitively equal to TAX, and likewise tip for TIP, so multiple
entries of the same type are additive. -/
theorem c4_tax_tip_sums (adjs : List Adjustment) :
    extract_tax_and_tip adjs
      = (round2 (((adjs.filter fun a => ciEq a.type "TAX").map (·.amount)).sum),
         round2 (((adjs.filter fun a => ciEq a.type "TIP").map (·.amount)).sum)) := by
  have hTAX : ∀ a : Adjustment, (ciEq a.type "TAX") = (strUpper a.type == "TAX") := by
    intro a
    show (strUpper a.type == strUpper "TAX") = (strUpper a.type == "TAX")
    norm_num [show strUpper "TAX" = "TAX" from by decide]
  have hTIP : ∀ a : Adjustment, (ciEq a.type "TIP") = (strUpper a.type == "TIP") := by
    intro a
    show (strUpper a.type == strUpper "TIP") = (strUpper a.type == "TIP")
    norm_num [show strUpper "TIP" = "TIP" from by decide]
  rw [extract_tax_and_tip]
  simp only [extract_foldl_eq, zero_add]
  rw [List.filter_congr fun a _ => hTAX a, List.filter_congr fun a _ => hTIP a]

/-! ### C3: pricing invariants -/

theorem calculate_pricing_adjustments_centi (products : List RawProduct)
    (pp : PricingParams) :
    ∀ x ∈ ((calculate_pricing products pp).adjustments.map (·.amount)), IsCenti x := by
  intro x hx
  unfold calculate_pricing at hx
  cases hpf : pp.hasFee <;> simp [hpf] at hx <;>
    rcases hx with h | h <;> first
      | (subst h; exact isCenti_round2 _)
      | (rcases h with h | h <;> subst h <;> exact isCenti_round2 _)

theorem calculate_pricing_total_exact (products : List RawProduct)
    (pp : PricingParams) :
    (calculate_pricing products pp).total
      = (calculate_pricing products pp).subTotal
        + (((calculate_pricing products pp).adjustments.map (·.amount)).sum) := by
  have hsub : IsCenti (calculate_pricing products pp).subTotal := by
    unfold calculate_pricing
    exact isCenti_round2 _
  have hadj := calculate_pricing_adjustments_centi products pp
  have hsum : IsCenti
      ((calculate_pricing products pp).subTotal
        + (((calculate_pricing products pp).adjustments.map (·.amount)).sum)) :=
    isCenti_add hsub (isCenti_sum hadj)
  have hdef : (calculate_pricing products pp).total
      = round2 ((calculate_pricing products pp).subTotal
        + (((calculate_pricing products pp).adjustments.map (·.amount)).sum)) := by
    unfold calculate_pricing
    cases pp.hasFee <;> simp
  rw [hdef, round2_eq_self hsum]

/-- C3: for the synthesized pricing, with the uniform draws lying in their
documented ranges, the TAX adjustment amount is a [6%, 8%] rate of the
subtotal (rounded to 2 decimals), the TIP amount a [10%, 20%] rate, the
service fee — exactly when the 30%-probability draw fired — a [3%, 5%]
rate placed first in the adjustments list, and the total equals the
subtotal plus the sum of all adjustment amounts exactly (hence within the
0.01 tolerance). -/
theorem c3_pricing_invariants (products : List RawProduct) (pp : PricingParams)
    (htax1 : 6/100 ≤ pp.taxRate) (htax2 : pp.taxRate ≤ 8/100)
    (htip1 : 10/100 ≤ pp.tipRate) (htip2 : pp.tipRate ≤ 20/100)
    (hfee1 : 3/100 ≤ pp.feeRate) (hfee2 : pp.feeRate ≤ 5/100) :
    (∃ r, 6/100 ≤ r ∧ r ≤ 8/100 ∧
      (((calculate_pricing products pp).adjustments.filter
          fun a => a.type == "TAX").map (·.amount))
        = [round2 ((calculate_pricing products pp).subTotal * r)]) ∧
    (∃ r, 10/100 ≤ r ∧ r ≤ 20/100 ∧
      (((calculate_pricing products pp).adjustments.filter
          fun a => a.type == "TIP").map (·.amount))
        = [round2 ((calculate_pricing products pp).subTotal * r)]) ∧
    (pp.hasFee = true →
      ∃ r, 3/100 ≤ r ∧ r ≤ 5/100 ∧
        (calculate_pricing products pp).adjustments.head?
          = some { type := "FEE", label := "Service Fee",
                   amount := round2 ((calculate_pricing products pp).subTotal * r) }) ∧
    (pp.hasFee = false →
      ((calculate_pricing products pp).adjustments.filter
          fun a => a.type == "FEE") = []) ∧
    (calculate_pricing products pp).total
      = round2 ((calculate_pricing products pp).subTotal
          + (((calculate_pricing products pp).adjustments.map (·.amount)).sum)) ∧
    (calculate_pricing products pp).total
      = (calculate_pricing products pp).subTotal
        + (((calculate_pricing products pp).adjustments.map (·.amount)).sum) := by
  refine ⟨⟨pp.taxRate, htax1, htax2, ?_⟩, ⟨pp.tipRate, htip1, htip2, ?_⟩,
    fun hf => ⟨pp.feeRate, hfee1, hfee2, ?_⟩, fun hf => ?_, ?_, ?_⟩
  · unfold calculate_pricing
    cases hpf : pp.hasFee <;> rfl
  · unfold calculate_pricing
    cases hpf : pp.hasFee <;> rfl
  · unfold calculate_pricing
    rw [hf]
    rfl
  · unfold calculate_pricing
    rw [hf]
    rfl
  · unfold calculate_pricing
    cases pp.hasFee <;> simp
  · exact calculate_pricing_total_exact products pp

/-- Witness for c3_pricing_invariants at a concrete product list and
concrete in-range draws. -/
theorem c3_pricing_invariants_witness :
    ((6:ℚ)/100 ≤ 7/100 ∧ (7:ℚ)/100 ≤ 8/100 ∧
     (10:ℚ)/100 ≤ 15/100 ∧ (15:ℚ)/100 ≤ 20/100 ∧
     (3:ℚ)/100 ≤ 4/100 ∧ (4:ℚ)/100 ≤ 5/100) ∧
    ((∃ r, 6/100 ≤ r ∧ r ≤ 8/100 ∧
      (((calculate_pricing [⟨"Falafel", 2, 5, 10⟩]
            ⟨7/100, 15/100, true, 4/100⟩).adjustments.filter
          fun a => a.type == "TAX").map (·.amount))
        = [round2 ((calculate_pricing [⟨"Falafel", 2, 5, 10⟩]
            ⟨7/100, 15/100, true, 4/100⟩).subTotal * r)]) ∧
    (∃ r, 10/100 ≤ r ∧ r ≤ 20/100 ∧
      (((calculate_pricing [⟨"Falafel", 2, 5, 10⟩]
            ⟨7/100, 15/100, true, 4/100⟩).adjustments.filter
          fun a => a.type == "TIP").map (·.amount))
        = [round2 ((calculate_pricing [⟨"Falafel", 2, 5, 10⟩]
            ⟨7/100, 15/100, true, 4/100⟩).subTotal * r)]) ∧
    ((true : Bool) = true →
      ∃ r, 3/100 ≤ r ∧ r ≤ 5/100 ∧
        (calculate_pricing [⟨"Falafel", 2, 5, 10⟩]
            ⟨7/100, 15/100, true, 4/100⟩).adjustments.head?
          = some { type := "FEE", label := "Service Fee",
                   amount := round2 ((calculate_pricing [⟨"Falafel", 2, 5, 10⟩]
                     ⟨7/100, 15/100, true, 4/100⟩).subTotal * r) }) ∧
    ((true : Bool) = false →
      ((calculate_pricing [⟨"Falafel", 2, 5, 10⟩]
            ⟨7/100, 15/100, true, 4/100⟩).adjustments.filter
          fun a => a.type == "FEE") = []) ∧
    (calculate_pricing [⟨"Falafel", 2, 5, 10⟩]
        ⟨7/100, 15/100, true, 4/100⟩).total
      = round2 ((calculate_pricing [⟨"Falafel", 2, 5, 10⟩]
            ⟨7/100, 15/100, true, 4/100⟩).subTotal
          + (((calculate_pricing [⟨"Falafel", 2, 5, 10⟩]
            ⟨7/100, 15/100, true, 4/100⟩).adjustments.map (·.amount)).sum)) ∧
    (calculate_pricing [⟨"Falafel", 2, 5, 10⟩]
        ⟨7/100, 15/100, true, 4/100⟩).total
      = (calculate_pricing [⟨"Falafel", 2, 5, 10⟩]
          ⟨7/100, 15/100, true, 4/100⟩).subTotal
        + (((calculate_pricing [⟨"Falafel", 2, 5, 10⟩]
            ⟨7/100, 15/100, true, 4/100⟩).adjustments.map (·.amount)).sum)) :=
  ⟨by norm_num,
   c3_pricing_invariants [⟨"Falafel", 2, 5, 10⟩] ⟨7/100, 15/100, true, 4/100⟩
     (by norm_num) (by norm_num) (by norm_num) (by norm_num)
     (by norm_num) (by norm_num)⟩

/-! ### C7: no eligible menu items means graceful failure -/

/-- C7: for a catalog entry whose menus field is null, or that has no
eligible item at all, menu selection returns the empty list and the order
synthesizer returns the failure signal none instead of an order, for every
random draw. -/
theorem c7_no_menu_no_crash (r : Restaurant) (sp : SelectParams)
    (gp : GenParams) (i : ℕ) (h : r.menus = none ∨ valid_items r = []) :
    select_menu_items r sp = [] ∧ generate_order r gp i = none := by
  have hv : valid_items r = [] := by
    rcases h with h | h
    · simp [valid_items, all_items, h]
    · exact h
  have hsel : ∀ sp2 : SelectParams, select_menu_items r sp2 = [] := by
    intro sp2
    simp [select_menu_items, hv]
  exact ⟨hsel sp, by simp [generate_order, hsel gp.sel]⟩

/-- Witness for c7_no_menu_no_crash on a catalog entry with null menus. -/
theorem c7_no_menu_no_crash_witness :
    (rNoMenus.menus = none ∨ valid_items rNoMenus = []) ∧
    (select_menu_items rNoMenus spW = [] ∧ generate_order rNoMenus gpW 0 = none) :=
  ⟨Or.inl rfl, c7_no_menu_no_crash rNoMenus spW gpW 0 (Or.inl rfl)⟩

/-! ### C10: selection draws only from the three fixed category keys -/

theorem mem_buildProducts {p : RawProduct} :
    ∀ (sel : List MenuItem) (qs : List ℕ), p ∈ buildProducts sel qs →
      ∃ item ∈ sel, item = MenuItem.obj (some p.name) (some p.unitPrice) := by
  intro sel
  induction sel with
  | nil => intro qs hp; simp [buildProducts] at hp
  | cons item rest ih =>
      intro qs hp
      cases item with
      | text s =>
          obtain ⟨it, hit, heq⟩ := ih qs (by simpa [buildProducts] using hp)
          exact ⟨it, List.mem_cons_of_mem _ hit, heq⟩
      | obj name up =>
          cases name with
          | none =>
              obtain ⟨it, hit, heq⟩ := ih qs (by simpa [buildProducts] using hp)
              exact ⟨it, List.mem_cons_of_mem _ hit, heq⟩
          | some n =>
              cases up with
              | none =>
                  obtain ⟨it, hit, heq⟩ := ih qs (by simpa [buildProducts] using hp)
                  exact ⟨it, List.mem_cons_of_mem _ hit, heq⟩
              | some u =>
                  by_cases hn : (n == "") = true
                  · obtain ⟨it, hit, heq⟩ := ih qs (by simpa [buildProducts, hn] using hp)
                    exact ⟨it, List.mem_cons_of_mem _ hit, heq⟩
                  · rw [buildProducts] at hp
                    simp only [hn, Bool.false_eq_true, if_false] at hp
                    rcases List.mem_cons.mp hp with heq | hmem
                    · subst heq
                      exact ⟨MenuItem.obj (some n) (some u), List.mem_cons_self _ _, rfl⟩
                    · obtain ⟨it, hit, heq⟩ := ih qs.tail hmem
                      exact ⟨it, List.mem_cons_of_mem _ hit, heq⟩

/-- C10: every product produced by menu selection originates in an item
listed under one of the three fixed category keys Dinner, Lunch, Drinks
of the entry's menus mapping; items under any other category name are
never selected. -/
theorem c10_only_fixed_categories (r : Restaurant)
    (m : List (String × Option (List MenuItem))) (sp : SelectParams)
    (p : RawProduct) (hm : r.menus = some m)
    (hp : p ∈ select_menu_items r sp) :
    ∃ cat ∈ categoryKeys, ∃ item ∈ menuSection m cat,
      itemIsValid item = true ∧ item = MenuItem.obj (some p.name) (some p.unitPrice) := by
  rw [select_menu_items] at hp
  by_cases he : (valid_items r).isEmpty = true
  · simp [he] at hp
  · simp only [he, Bool.false_eq_true, if_false] at hp
    obtain ⟨item, hitem, heq⟩ := mem_buildProducts _ _ hp
    have hmemperm : item ∈ applyPerm sp.perm (valid_items r) :=
      List.mem_of_mem_take hitem
    have hmemvalid : item ∈ valid_items r := by
      obtain ⟨i, _, hi⟩ := List.mem_filterMap.mp hmemperm
      exact List.getElem?_mem hi
    have hvalid : itemIsValid item = true := List.of_mem_filter hmemvalid
    have hmemall : item ∈ all_items r := List.mem_of_mem_filter hmemvalid
    rw [all_items, hm] at hmemall
    obtain ⟨cat, hcat, hitem2⟩ := List.mem_flatMap.mp hmemall
    exact ⟨cat, hcat, item, hitem2, hvalid, heq⟩

/-- Witness for c10_only_fixed_categories on the two-category entry. -/
theorem c10_only_fixed_categories_witness :
    (rDinner.menus = some
      [("Dinner", some [MenuItem.obj (some "Falafel Platter") (some 14)]),
       ("Breakfast", some [MenuItem.obj (some "Pancakes") (some 9)])]) ∧
    (wProduct ∈ select_menu_items rDinner spW) ∧
    (∃ cat ∈ categoryKeys, ∃ item ∈ menuSection
        [("Dinner", some [MenuItem.obj (some "Falafel Platter") (some 14)]),
         ("Breakfast", some [MenuItem.obj (some "Pancakes") (some 9)])] cat,
      itemIsValid item = true ∧
      item = MenuItem.obj (some wProduct.name) (some wProduct.unitPrice)) :=
  ⟨rfl,
   (show select_menu_items rDinner spW = [wProduct] from rfl) ▸
     List.mem_cons_self wProduct [],
   c10_only_fixed_categories rDinner _ spW _ rfl
     ((show select_menu_items rDinner spW = [wProduct] from rfl) ▸
       List.mem_cons_self wProduct [])⟩

/-! ### C8: bounded retry with failure tally -/

theorem runBatch_foldl (slots : List (ℕ × List (Restaurant × GenParams)))
    (acc : List RawOrder × ℕ) :
    slots.foldl
      (fun acc slot =>
        match trySlot slot.2 slot.1 with
        | some o => (acc.1 ++ [o], acc.2)
        | none => (acc.1, acc.2 + 1))
      acc
    = (acc.1 ++ slots.filterMap (fun s => trySlot s.2 s.1),
       acc.2 + (slots.filter fun s => (trySlot s.2 s.1).isNone).length) := by
  induction slots generalizing acc with
  | nil => simp
  | cons s l ih =>
      rw [List.foldl_cons]
      cases h : trySlot s.2 s.1 with
      | none => simp [ih, h, List.filterMap_cons, List.filter_cons, add_comm,
          add_assoc, add_left_comm]
      | some o => simp [ih, h, List.filterMap_cons, List.filter_cons]

theorem length_filterMap_add_none (l : List (ℕ × List (Restaurant × GenParams))) :
    (l.filterMap (fun s => trySlot s.2 s.1)).length
      + (l.filter fun s => (trySlot s.2 s.1).isNone).length = l.length := by
  induction l with
  | nil => simp
  | cons s t ih =>
      cases h : trySlot s.2 s.1 with
      | none =>
          simp [List.filterMap_cons, List.filter_cons, h]
          omega
      | some o =>
          simp [List.filterMap_cons, List.filter_cons, h]
          omega

/-- C8: the batch loop gives every slot up to exactly maxRetries = 5
attempts, each with its own freshly drawn restaurant; a slot succeeding
within the budget contributes its first successful order, a slot whose
first 5 attempts all fail is tallied as one permanent failure, and the
batch always processes every slot, with successes plus failures totalling
the batch size. -/
theorem c8_retry_budget (slots : List (ℕ × List (Restaurant × GenParams))) :
    (runBatch slots).1 = slots.filterMap (fun s => trySlot s.2 s.1) ∧
    (runBatch slots).2 = (slots.filter fun s => (trySlot s.2 s.1).isNone).length ∧
    (runBatch slots).1.length + (runBatch slots).2 = slots.length ∧
    (∀ picks i, trySlot picks i = trySlot (picks.take maxRetries) i) ∧
    (∀ picks i, (∀ rg ∈ picks.take maxRetries, generate_order rg.1 rg.2 i = none) →
      trySlot picks i = none) ∧
    (∀ picks i o, trySlot picks i = some o →
      ∃ rg ∈ picks.take maxRetries, generate_order rg.1 rg.2 i = some o) := by
  have hrb : runBatch slots
      = (slots.filterMap (fun s => trySlot s.2 s.1),
         (slots.filter fun s => (trySlot s.2 s.1).isNone).length) := by
    rw [runBatch, runBatch_foldl]
    simp
  refine ⟨by rw [hrb], by rw [hrb], ?_, ?_, ?_, ?_⟩
  · rw [hrb]
    exact length_filterMap_add_none slots
  · intro picks i
    rw [trySlot, trySlot, List.take_take, min_self]
  · intro picks i h
    exact List.findSome?_eq_none_iff.mpr h
  · intro picks i o h
    exact List.exists_of_findSome?_eq_some h

/-- Witness for c8_retry_budget on a two-slot batch: one slot that
succeeds on its second attempt and one that exhausts all five attempts. -/
theorem c8_retry_budget_witness :
    ((runBatch [(0, [(rNoMenus, gpW), (rDinner, gpW)]),
                (1, [(rNoMenus, gpW), (rNoMenus, gpW), (rNoMenus, gpW),
                     (rNoMenus, gpW), (rNoMenus, gpW), (rDinner, gpW)])]).1
      = [(0, [(rNoMenus, gpW), (rDinner, gpW)]),
         (1, [(rNoMenus, gpW), (rNoMenus, gpW), (rNoMenus, gpW),
              (rNoMenus, gpW), (rNoMenus, gpW), (rDinner, gpW)])].filterMap
          (fun s => trySlot s.2 s.1)) ∧
    ((runBatch [(0, [(rNoMenus, gpW), (rDinner, gpW)]),
                (1, [(rNoMenus, gpW), (rNoMenus, gpW), (rNoMenus, gpW),
                     (rNoMenus, gpW), (rNoMenus, gpW), (rDinner, gpW)])]).2
      = ([(0, [(rNoMenus, gpW), (rDinner, gpW)]),
          (1, [(rNoMenus, gpW), (rNoMenus, gpW), (rNoMenus, gpW),
               (rNoMenus, gpW), (rNoMenus, gpW), (rDinner, gpW)])].filter
          fun s => (trySlot s.2 s.1).isNone).length) ∧
    ((runBatch [(0, [(rNoMenus, gpW), (rDinner, gpW)]),
                (1, [(rNoMenus, gpW), (rNoMenus, gpW), (rNoMenus, gpW),
                     (rNoMenus, gpW), (rNoMenus, gpW), (rDinner, gpW)])]).1.length
      + (runBatch [(0, [(rNoMenus, gpW), (rDinner, gpW)]),
                   (1, [(rNoMenus, gpW), (rNoMenus, gpW), (rNoMenus, gpW),
                        (rNoMenus, gpW), (rNoMenus, gpW), (rDinner, gpW)])]).2
      = 2) ∧
    (∀ picks i, trySlot picks i = trySlot (picks.take maxRetries) i) ∧
    (∀ picks i, (∀ rg ∈ picks.take maxRetries, generate_order rg.1 rg.2 i = none) →
      trySlot picks i = none) ∧
    (∀ picks i o, trySlot picks i = some o →
      ∃ rg ∈ picks.take maxRetries, generate_order rg.1 rg.2 i = some o) :=
  c8_retry_budget
    [(0, [(rNoMenus, gpW), (rDinner, gpW)]),
     (1, [(rNoMenus, gpW), (rNoMenus, gpW), (rNoMenus, gpW),
          (rNoMenus, gpW), (rNoMenus, gpW), (rDinner, gpW)])]

/-! ### C2: list contract — full count, date-descending page of matches -/

/-- C2: for every collection, valid pagination parameters and filter
combination, the List operation returns a page slice that is sorted by
order_completed_at descending and consists only of stored orders matching
the filter, while the returned total is the count of all matching orders
in the collection, independent of the page length. -/
theorem c2_list_contract (collection : List Order) (page page_size : ℕ)
    (f : OrderFilters) (hp : 1 ≤ page) (hs1 : 1 ≤ page_size)
    (hs2 : page_size ≤ 100) :
    (get_orders collection page page_size f).total
      = (collection.filter (matchesOrderFilters f)).length ∧
    (get_orders collection page page_size f).orders.Pairwise byDateDesc ∧
    (∀ o ∈ (get_orders collection page page_size f).orders,
      o ∈ collection ∧ matchesOrderFilters f o = true) ∧
    (get_orders collection page page_size f).page = page ∧
    (get_orders collection page page_size f).page_size = page_size := by
  refine ⟨rfl, ?_, ?_, rfl, rfl⟩
  · have hs : List.Sorted byDateDesc
        (List.insertionSort byDateDesc (collection.filter (matchesOrderFilters f))) :=
      List.sorted_insertionSort byDateDesc _
    exact List.Pairwise.sublist
      ((List.take_sublist _ _).trans (List.drop_sublist _ _)) hs
  · intro o ho
    have h1 : o ∈ List.insertionSort byDateDesc
        (collection.filter (matchesOrderFilters f)) :=
      List.mem_of_mem_drop (List.mem_of_mem_take ho)
    have h2 : o ∈ collection.filter (matchesOrderFilters f) :=
      (List.perm_insertionSort byDateDesc _).mem_iff.mp h1
    exact ⟨List.mem_of_mem_filter h2, List.of_mem_filter h2⟩

/-- Witness for c2_list_contract on a one-order collection with the empty
filter and default pagination. -/
theorem c2_list_contract_witness :
    ((1:ℕ) ≤ 1 ∧ (1:ℕ) ≤ 20 ∧ (20:ℕ) ≤ 100) ∧
    ((get_orders [oAbc] 1 20 noOrderFilters).total
      = ([oAbc].filter (matchesOrderFilters noOrderFilters)).length ∧
    (get_orders [oAbc] 1 20 noOrderFilters).orders.Pairwise byDateDesc ∧
    (∀ o ∈ (get_orders [oAbc] 1 20 noOrderFilters).orders,
      o ∈ [oAbc] ∧ matchesOrderFilters noOrderFilters o = true) ∧
    (get_orders [oAbc] 1 20 noOrderFilters).page = 1 ∧
    (get_orders [oAbc] 1 20 noOrderFilters).page_size = 20) :=
  ⟨⟨by decide, by decide, by decide⟩,
   c2_list_contract [oAbc] 1 20 noOrderFilters (by decide) (by decide) (by decide)⟩

/-! ### C1: proximity search errors on every request -/

/-- C1: the proximity route never returns a page at all — count_documents
executes the $near filter as an aggregation $match stage, where $near is
disallowed, so the server rejects the count and the route raises on every
request; in particular it is evaluated at the concrete failing request
longitude=0, latitude=0, max_distance_km=5, page=1, page_size=20,
use_shipping=true over a nonempty collection.  The within-radius,
nearest-first page the claim describes is never produced. -/
theorem c1_nearby_errors_on_every_request :
    (∀ (dist : GeoPoint → GeoPoint → ℚ) (collection : List Order)
       (longitude latitude max_distance_km : ℚ) (page page_size : ℕ)
       (use_shipping : Bool),
       get_orders_nearby dist collection longitude latitude max_distance_km
         page page_size use_shipping
         = Except.error QueryError.nearNotAllowedInCountDocuments) ∧
    get_orders_nearby (fun _ _ => 0) [oAbc] 0 0 5 1 20 true
      = Except.error QueryError.nearNotAllowedInCountDocuments :=
  ⟨fun _ _ _ _ _ _ _ _ => rfl, rfl⟩

/-! ### C5: store-name filtering is a regex search, not a substring test -/

/-- Counterexample to C5: the pattern a.c contains a regex metacharacter;
it is not a substring of the store name Abc Diner under any casing, yet
the List operation (and the by-store route) matches the order, because the
filter value is interpreted as a regular expression. -/
theorem c5_substring_counterexample :
    (get_orders [oAbc] 1 20
      { user_id := none, status := none, store_name := some "a.c",
        start_date := none, end_date := none,
        min_total := none, max_total := none }).total = 1 ∧
    (get_orders_by_store [oAbc] "a.c" 1 20).total = 1 ∧
    substrSearchCI "a.c" oAbc.store.name = false ∧
    (isRegexMeta '.') = true := by
  refine ⟨?_, ?_, by decide, by decide⟩ <;> decide

theorem reMatchHere_eq_lit (ps : List Char)
    (h : ∀ c ∈ ps, isRegexMeta c = false) :
    ∀ cs, reMatchHere ps cs = litMatchHere ps cs := by
  induction ps with
  | nil => intro cs; cases cs <;> rfl
  | cons p ps ih =>
      intro cs
      cases cs with
      | nil => rfl
      | cons c cs =>
          have hp : (p = '.') = False := by
            have := h p (List.mem_cons_self p ps)
            simp only [isRegexMeta, Bool.or_eq_false_iff, decide_eq_false_iff_not] at this
            simp [this.1.1.1.1.1.1.1.1.1.1.1.1.1]
          rw [reMatchHere, litMatchHere, reCharMatches, litCharMatches,
            ih fun x hx => h x (List.mem_cons_of_mem p hx)]
          simp [hp]

theorem reSearch_eq_lit (ps : List Char)
    (h : ∀ c ∈ ps, isRegexMeta c = false) :
    ∀ cs, reSearch ps cs = litSearch ps cs := by
  intro cs
  induction cs with
  | nil => rfl
  | cons c cs ih =>
      rw [reSearch, litSearch, reMatchHere_eq_lit ps h, ih]

/-- C5 as amended: the store_name filter value is applied as a
case-insensitive regular-expression search over the store name (so
metacharacters are interpreted); only when the filter value contains no
regex metacharacter does matching coincide with a case-insensitive
substring test, for the List filter clause and the by-store route alike. -/
theorem c5_regex_filter_semantics (pat : String)
    (h : ∀ c ∈ pat.data, isRegexMeta c = false) :
    (∀ name, regexSearchCI pat name = substrSearchCI pat name) ∧
    (∀ collection : List Order, ∀ page ps : ℕ,
      (get_orders_by_store collection pat page ps).total
        = (collection.filter fun o => substrSearchCI pat o.store.name).length) ∧
    (∀ o : Order, storeNameMatches (some pat) o
        = (pat == "" || substrSearchCI pat o.store.name)) := by
  have hsearch : ∀ name, regexSearchCI pat name = substrSearchCI pat name :=
    fun name => reSearch_eq_lit pat.data h name.data
  refine ⟨hsearch, ?_, ?_⟩
  · intro collection page ps
    show (collection.filter fun o => regexSearchCI pat o.store.name).length = _
    rw [List.filter_congr fun o _ => hsearch o.store.name]
  · intro o
    rw [storeNameMatches, hsearch]

/-- Witness for c5_regex_filter_semantics on a metacharacter-free
pattern. -/
theorem c5_regex_filter_semantics_witness :
    (∀ c ∈ "mamoun".data, isRegexMeta c = false) ∧
    ((∀ name, regexSearchCI "mamoun" name = substrSearchCI "mamoun" name) ∧
    (∀ collection : List Order, ∀ page ps : ℕ,
      (get_orders_by_store collection "mamoun" page ps).total
        = (collection.filter fun o => substrSearchCI "mamoun" o.store.name).length) ∧
    (∀ o : Order, storeNameMatches (some "mamoun") o
        = ("mamoun" == "" || substrSearchCI "mamoun" o.store.name))) :=
  ⟨by decide, c5_regex_filter_semantics "mamoun" (by decide)⟩

/-! ### C9: summary statistics over an empty match set -/

/-- C9: whenever no stored order matches the stats filter, the summary
statistics operation returns the all-zero record — in particular the
average order value is zero rather than a division failure. -/
theorem c9_stats_all_zero (collection : List Order) (f : StatsFilters)
    (h : collection.filter (matchesStatsFilters f) = []) :
    get_order_stats collection f
      = { total_orders := 0, total_revenue := 0, average_order_value := 0,
          total_tax := 0, total_tips := 0,
          unique_users := 0, unique_restaurants := 0 } := by
  rw [get_order_stats]
  simp [h]

/-- Witness for c9_stats_all_zero: a nonempty collection and a user filter
matching nothing. -/
theorem c9_stats_all_zero_witness :
    ([oAbc].filter (matchesStatsFilters
      { user_id := some "nobody", store_name := none,
        start_date := none, end_date := none }) = []) ∧
    get_order_stats [oAbc]
      { user_id := some "nobody", store_name := none,
        start_date := none, end_date := none }
      = { total_orders := 0, total_revenue := 0, average_order_value := 0,
          total_tax := 0, total_tips := 0,
          unique_users := 0, unique_restaurants := 0 } :=
  ⟨by decide,
   c9_stats_all_zero [oAbc]
     { user_id := some "nobody", store_name := none,
       start_date := none, end_date := none }
     (by decide)⟩

/-! ### C6: defensive JSON extraction -/

/-- Counterexample to C6: on this input the longest bracket-delimited
substring parses to a list, but the lazy regex truncates the nested array
at the first closing bracket, so the code returns the empty list instead
of that value. -/
theorem c6_longest_substring_counterexample :
    extract_json_from_response "junk [[1,2]] junk" = [] ∧
    extract_json_spec "junk [[1,2]] junk" = [Json.arr [Json.num 1, Json.num 2]] ∧
    longestDelimitedSubstring "junk [[1,2]] junk" = some "[[1,2]]" ∧
    findallDelims "junk [[1,2]] junk" = ["[[1,2]"] :=
  ⟨rfl, rfl, rfl, rfl⟩

theorem foldl_pyPickLonger_mem (t : List String) :
    ∀ acc : String, t.foldl pyPickLonger acc = acc ∨ t.foldl pyPickLonger acc ∈ t := by
  induction t with
  | nil => intro acc; exact Or.inl rfl
  | cons x t ih =>
      intro acc
      rw [List.foldl_cons]
      rcases ih (pyPickLonger acc x) with h | h
      · rw [h, pyPickLonger]
        by_cases hlt : acc.length < x.length
        · rw [if_pos hlt]; exact Or.inr (List.mem_cons_self x t)
        · rw [if_neg hlt]; exact Or.inl rfl
      · exact Or.inr (List.mem_cons_of_mem x h)

theorem foldl_pyPickLonger_le (t : List String) :
    ∀ acc : String, acc.length ≤ (t.foldl pyPickLonger acc).length ∧
      ∀ m ∈ t, m.length ≤ (t.foldl pyPickLonger acc).length := by
  induction t with
  | nil => intro acc; exact ⟨le_refl _, by simp⟩
  | cons x t ih =>
      intro acc
      rw [List.foldl_cons]
      obtain ⟨h1, h2⟩ := ih (pyPickLonger acc x)
      have hacc : acc.length ≤ (pyPickLonger acc x).length := by
        rw [pyPickLonger]
        by_cases hlt : acc.length < x.length
        · rw [if_pos hlt]; exact le_of_lt hlt
        · rw [if_neg hlt]
      have hx : x.length ≤ (pyPickLonger acc x).length := by
        rw [pyPickLonger]
        by_cases hlt : acc.length < x.length
        · rw [if_pos hlt]
        · rw [if_neg hlt]; exact le_of_not_lt hlt
      refine ⟨le_trans hacc h1, ?_⟩
      intro m hm
      rcases List.mem_cons.mp hm with rfl | hm
      · exact le_trans hx h1
      · exact h2 m hm

theorem extract_else (s : String)
    (h : ∀ l, Json.parse s ≠ some (Json.arr l)) :
    extract_json_from_response s
      = (if (findallDelims s).isEmpty then []
         else match Json.parse (pyMaxLen (findallDelims s)) with
              | some (Json.arr l) => l
              | some v => [v]
              | none => []) := by
  rw [extract_json_from_response]
  cases hp : Json.parse s with
  | none => rfl
  | some v =>
      cases v with
      | arr l => exact absurd hp (h l)
      | num n => rfl
      | str s2 => rfl
      | obj fs => rfl

/-- C6 as amended: the extraction first attempts a whole-string parse and
returns it when it yields a list; otherwise it scans for the
non-overlapping lazy regex matches (each running from an opening bracket
or brace to the first later closer of that kind), selects the longest of
those matches — not the longest delimited substring of the text — parses
it, wraps a parsed bare object into a singleton list, and returns the
empty list when nothing matched or the selected match fails to parse; as a
total function it never raises. -/
theorem c6_extraction_contract (s : String) :
    (∀ l, Json.parse s = some (Json.arr l) → extract_json_from_response s = l) ∧
    ((∀ l, Json.parse s ≠ some (Json.arr l)) → findallDelims s = [] →
      extract_json_from_response s = []) ∧
    ((∀ l, Json.parse s ≠ some (Json.arr l)) → findallDelims s ≠ [] →
      pyMaxLen (findallDelims s) ∈ findallDelims s ∧
      (∀ m ∈ findallDelims s, m.length ≤ (pyMaxLen (findallDelims s)).length) ∧
      extract_json_from_response s
        = (match Json.parse (pyMaxLen (findallDelims s)) with
           | some (Json.arr l) => l
           | some v => [v]
           | none => [])) := by
  refine ⟨?_, ?_, ?_⟩
  · intro l hl
    rw [extract_json_from_response, hl]
  · intro h hf
    rw [extract_else s h, hf]
    rfl
  · intro h hf
    obtain ⟨m, t, hmt⟩ : ∃ m t, findallDelims s = m :: t := by
      cases hd : findallDelims s with
      | nil => exact absurd hd hf
      | cons m t => exact ⟨m, t, rfl⟩
    refine ⟨?_, ?_, ?_⟩
    · rw [hmt, pyMaxLen]
      rcases foldl_pyPickLonger_mem t m with he | he
      · rw [he]; exact List.mem_cons_self m t
      · exact List.mem_cons_of_mem m he
    · intro x hx
      rw [hmt, pyMaxLen]
      rw [hmt] at hx
      rcases List.mem_cons.mp hx with rfl | hx
      · exact (foldl_pyPickLonger_le t x).1
      · exact (foldl_pyPickLonger_le t m).2 x hx
    · rw [extract_else s h]
      have : (findallDelims s).isEmpty = false := by
        rw [hmt]; rfl
      rw [this, if_neg (by simp)]

/-- Witness for c6_extraction_contract at a concrete non-JSON input whose
single lazy match parses to a list. -/
theorem c6_extraction_contract_witness :
    ((∀ l, Json.parse "no [1,2] yes" ≠ some (Json.arr l)) ∧
     findallDelims "no [1,2] yes" ≠ []) ∧
    (pyMaxLen (findallDelims "no [1,2] yes") ∈ findallDelims "no [1,2] yes" ∧
     (∀ m ∈ findallDelims "no [1,2] yes",
        m.length ≤ (pyMaxLen (findallDelims "no [1,2] yes")).length) ∧
     extract_json_from_response "no [1,2] yes"
       = (match Json.parse (pyMaxLen (findallDelims "no [1,2] yes")) with
          | some (Json.arr l) => l
          | some v => [v]
          | none => [])) :=
  ⟨⟨fun l hl => by
      rw [show Json.parse "no [1,2] yes" = none from rfl] at hl
      exact Option.noConfusion hl,
    by decide⟩,
   (c6_extraction_contract "no [1,2] yes").2.2
     (fun l hl => by
       rw [show Json.parse "no [1,2] yes" = none from rfl] at hl
       exact Option.noConfusion hl)
     (by decide)⟩

end RestaurantStats
